import Mathlib

/-!
Verification development for the FreeRCT viewport subsystem (src/viewport.cpp).

The C++ code is shallowly embedded: machine signed integers are modelled as
unbounded `Int`; the C++ truncating signed division `/` is `Int.tdiv`; the
arithmetic right shift `>> 8` on a signed value is floor division by 256,
`Int.fdiv · 256`; the narrowing assignment of an `int32` expression to an
`int16` variable is a two's complement wrap, modelled by `toInt16`.
Unsigned `uint16` quantities (tile sizes, rectangle extents) are `Nat`
and are cast to `Int` where the C++ promotes them into signed arithmetic.
-/

/-- View orientations (`ViewOrientation` of orientation.h). The four
constructors correspond to `VOR_NORTH`, `VOR_EAST`, `VOR_SOUTH`, `VOR_WEST`. -/
inductive ViewOrientation where
  | north
  | east
  | south
  | west
deriving DecidableEq

/-- Modelled from the spec: the numeric values of the `ViewOrientation`
enumerators of orientation.h (the header is not part of the sources here);
the spec lists the N/E/S/W cycle, giving `VOR_NORTH = 0`, `VOR_EAST = 1`,
`VOR_SOUTH = 2`, `VOR_WEST = 3`, and `VOR_NUM_ORIENT = 4`. -/
def ViewOrientation.val : ViewOrientation → ℕ
  | .north => 0
  | .east => 1
  | .south => 2
  | .west => 3

/-- Modelled from the spec: the cast of an integer in `0..3` back to a
`ViewOrientation` enumerator (inverse of `ViewOrientation.val`). -/
def ViewOrientation.ofVal : ℕ → ViewOrientation
  | 0 => .north
  | 1 => .east
  | 2 => .south
  | _ => .west

/-- Two's complement wrap of an integer to the `int16` range, modelling the
narrowing assignment of an `int32` expression to an `int16` variable. -/
def toInt16 (n : ℤ) : ℤ := (n + 32768) % 65536 - 32768

/-- Projection of a 3D world position to the horizontal 2D screen position:
`VoxelCollector::ComputeX` (viewport.cpp lines 38-47). `tw` is the
`tile_width` member. The C++ expression is
`((sign combination) * tile_width / 2) >> 8` with signed truncating `/`
and an arithmetic shift. -/
def ComputeX (o : ViewOrientation) (tw : ℕ) (x y : ℤ) : ℤ :=
  match o with
  | .north => Int.fdiv (Int.tdiv ((y - x) * tw) 2) 256
  | .west => Int.fdiv (Int.tdiv (-(x + y) * tw) 2) 256
  | .south => Int.fdiv (Int.tdiv ((x - y) * tw) 2) 256
  | .east => Int.fdiv (Int.tdiv ((x + y) * tw) 2) 256

/-- Projection of a 3D world position to the vertical 2D screen position:
`VoxelCollector::ComputeY` (viewport.cpp lines 56-65). The C++ expression is
`((sign combination) * tile_width / 4 - z * tile_height) >> 8`. -/
def ComputeY (o : ViewOrientation) (tw th : ℕ) (x y z : ℤ) : ℤ :=
  match o with
  | .north => Int.fdiv (Int.tdiv ((x + y) * tw) 4 - z * th) 256
  | .west => Int.fdiv (Int.tdiv ((y - x) * tw) 4 - z * th) 256
  | .south => Int.fdiv (Int.tdiv (-(x + y) * tw) 4 - z * th) 256
  | .east => Int.fdiv (Int.tdiv ((x - y) * tw) 4 - z * th) 256

/-- The horizontal sign combination of the spec (section 4.1): NORTH `y - x`,
WEST `-(x + y)`, SOUTH `x - y`, EAST `x + y`. -/
def specSignComboX (o : ViewOrientation) (x y : ℤ) : ℤ :=
  match o with
  | .north => y - x
  | .west => -(x + y)
  | .south => x - y
  | .east => x + y

/-- The vertical sign combination of the spec (section 4.1): NORTH `x + y`,
WEST `y - x`, SOUTH `-(x + y)`, EAST `x - y`. -/
def specSignComboY (o : ViewOrientation) (x y : ℤ) : ℤ :=
  match o with
  | .north => x + y
  | .west => y - x
  | .south => -(x + y)
  | .east => x - y

/-- Spec-side horizontal projection, following the claim wording: the sign
combination multiplied by `tile_width / 2`, then divided by 256. The final
division by 256 is the code's arithmetic right shift, i.e. floor division. -/
def specScreenX (o : ViewOrientation) (tw : ℕ) (x y : ℤ) : ℤ :=
  Int.fdiv (specSignComboX o x y * ((tw / 2 : ℕ) : ℤ)) 256

/-- Spec-side vertical projection, following the claim wording: the sign
combination multiplied by `tile_width / 4`, minus `z * tile_height`, divided
by 256 (floor division, the code's arithmetic right shift). -/
def specScreenY (o : ViewOrientation) (tw th : ℕ) (x y z : ℤ) : ℤ :=
  Int.fdiv (specSignComboY o x y * ((tw / 4 : ℕ) : ℤ) - z * th) 256

theorem tdiv_mul_two (s t : ℤ) : Int.tdiv (s * (2 * t)) 2 = s * t := by
  rw [show s * (2 * t) = s * t * 2 by ring, Int.mul_tdiv_cancel _ (by norm_num)]

theorem tdiv_mul_four (s t : ℤ) : Int.tdiv (s * (4 * t)) 4 = s * t := by
  rw [show s * (4 * t) = s * t * 4 by ring, Int.mul_tdiv_cancel _ (by norm_num)]

/-- C1: for every world position and each of the four orientations, the
horizontal output of the Coordinate Projector equals the orientation's sign
combination multiplied by `tile_width / 2`, divided by 256, and the vertical
output equals the vertical sign combination multiplied by `tile_width / 4`,
minus `z * tile_height`, divided by 256 — exact integer arithmetic, where
division by 256 is the code's arithmetic shift (floor division). Stated for
any `tile_width` divisible by 2 resp. 4 (the program uses 64). -/
theorem c1_projector_formula (o : ViewOrientation) (tw th : ℕ) (x y z : ℤ)
    (h2 : 2 ∣ tw) (h4 : 4 ∣ tw) :
    ComputeX o tw x y = specScreenX o tw x y ∧
    ComputeY o tw th x y z = specScreenY o tw th x y z := by
  obtain ⟨k, hk⟩ := h2
  obtain ⟨m, hm⟩ := h4
  have htw2 : tw / 2 = k := by omega
  have htw4 : tw / 4 = m := by omega
  constructor
  · cases o <;>
      (simp only [ComputeX, specScreenX, specSignComboX, htw2]
       simp only [hk]
       congr 1
       push_cast
       exact tdiv_mul_two _ _)
  · cases o <;>
      (simp only [ComputeY, specScreenY, specSignComboY, htw4]
       simp only [hm]
       congr 1
       congr 1
       push_cast
       exact tdiv_mul_four _ _)

/-- Witness for C1 at the program's tile size 64. -/
theorem c1_projector_formula_witness :
    2 ∣ 64 ∧ 4 ∣ 64 ∧
      (ComputeX .east 64 300 100 = specScreenX .east 64 300 100 ∧
        ComputeY .east 64 16 300 100 77 = specScreenY .east 64 16 300 100 77) :=
  ⟨by decide, by decide, c1_projector_formula .east 64 16 300 100 77 (by decide) (by decide)⟩

/-- Depth key computed by `SpriteCollector::CollectVoxel` (viewport.cpp lines
272-285): `sx * xpos + sy * ypos + zpos * 256` with
`sx = (orient == VOR_NORTH || orient == VOR_EAST) ? 256 : -256` and
`sy = (orient == VOR_NORTH || orient == VOR_WEST) ? 256 : -256`. -/
def spriteDepthKey (o : ViewOrientation) (xpos ypos zpos : ℤ) : ℤ :=
  (if o = .north ∨ o = .east then (256 : ℤ) else -256) * xpos +
    (if o = .north ∨ o = .west then (256 : ℤ) else -256) * ypos + zpos * 256

/-- Depth key computed by `PixelFinder::CollectVoxel` (viewport.cpp lines
329-338): the same expression, computed at the second code site. -/
def pixelDepthKey (o : ViewOrientation) (xpos ypos zpos : ℤ) : ℤ :=
  (if o = .north ∨ o = .east then (256 : ℤ) else -256) * xpos +
    (if o = .north ∨ o = .west then (256 : ℤ) else -256) * ypos + zpos * 256

/-- Spec-side depth key (section 4.3): coefficient `+256` on `xpos` for
NORTH/EAST and `-256` otherwise, coefficient `+256` on `ypos` for NORTH/WEST
and `-256` otherwise, plus `256 * zpos`. -/
def specDepthKey (o : ViewOrientation) (xpos ypos zpos : ℤ) : ℤ :=
  (if o = .north ∨ o = .east then (256 : ℤ) else -256) * xpos +
    (if o = .north ∨ o = .west then (256 : ℤ) else -256) * ypos + 256 * zpos

/-- C2: for every voxel position and every orientation, the Sprite Collector
and the Pixel Finder compute the same depth key, and it equals the spec's
formula with sign `+256` on `xpos` for NORTH/EAST (`-256` otherwise) and
`+256` on `ypos` for NORTH/WEST (`-256` otherwise), plus `256 * zpos`. -/
theorem c2_depth_key_agree (o : ViewOrientation) (xpos ypos zpos : ℤ) :
    spriteDepthKey o xpos ypos zpos = pixelDepthKey o xpos ypos zpos ∧
    spriteDepthKey o xpos ypos zpos = specDepthKey o xpos ypos zpos := by
  cases o <;> simp [spriteDepthKey, pixelDepthKey, specDepthKey] <;> ring

theorem fdiv256_sub_mul_lt (a t : ℤ) (h : 1 ≤ t) :
    Int.fdiv (a - 256 * t) 256 < Int.fdiv a 256 := by
  rw [Int.fdiv_eq_ediv _ (by norm_num), Int.fdiv_eq_ediv _ (by norm_num),
    show a - 256 * t = a + -t * 256 by ring,
    Int.add_mul_ediv_right _ _ (by norm_num : (256 : ℤ) ≠ 0)]
  omega

theorem fdiv256_shift (s t z : ℤ) (h : 1 ≤ t) :
    Int.fdiv (s - (z + 256) * t) 256 < Int.fdiv (s - z * t) 256 := by
  have h2 := fdiv256_sub_mul_lt (s - z * t) t h
  rw [show s - z * t - 256 * t = s - (z + 256) * t by ring] at h2
  exact h2

/-- C7: for each orientation and any fixed `(x, y)`, `tile_width`, and
`tile_height ≥ 1`, the vertical projector output strictly decreases when `z`
increases by one tile (256 fixed-point units). Determinism is immediate:
`ComputeY` is a pure function of its arguments. -/
theorem c7_screenY_strict_decrease (o : ViewOrientation) (tw th : ℕ) (x y z : ℤ)
    (hth : 1 ≤ th) :
    ComputeY o tw th x y (z + 256) < ComputeY o tw th x y z := by
  have ht : (1 : ℤ) ≤ (th : ℤ) := by exact_mod_cast hth
  cases o <;> simp only [ComputeY] <;> exact fdiv256_shift _ _ _ ht

/-- Witness for C7 at the program's tile dimensions. -/
theorem c7_screenY_strict_decrease_witness :
    1 ≤ 16 ∧ ComputeY .north 64 16 7 5 (3 + 256) < ComputeY .north 64 16 7 5 3 :=
  ⟨by decide, c7_screenY_strict_decrease .north 64 16 7 5 3 (by decide)⟩

/-- Skeleton of the innermost loop of `VoxelCollector::Collect` (viewport.cpp
lines 213-220): starting at count `c` with `n` voxels left in the stack,
return the list of counts for which `CollectVoxel` is invoked. A count
satisfying `skip` is passed over (the C++ `continue`); otherwise a count
satisfying `brk` stops the whole column (the C++ `break`); otherwise the
count is visited. The `continue` test comes first, as in the source. -/
def scanFrom (skip brk : ℕ → Bool) : ℕ → ℕ → List ℕ
  | _, 0 => []
  | c, n + 1 =>
    if skip c then scanFrom skip brk (c + 1) n
    else if brk c then []
    else c :: scanFrom skip brk (c + 1) n

theorem scanFrom_lower (skip brk : ℕ → Bool) :
    ∀ (n c x : ℕ), x ∈ scanFrom skip brk c n → c ≤ x := by
  intro n
  induction n with
  | zero =>
    intro c x hx
    simp [scanFrom] at hx
  | succ n ih =>
    intro c x hx
    simp only [scanFrom] at hx
    by_cases hs : skip c = true
    · rw [if_pos hs] at hx
      have := ih (c + 1) x hx
      omega
    · rw [if_neg hs] at hx
      by_cases hb : brk c = true
      · rw [if_pos hb] at hx
        simp at hx
      · rw [if_neg hb] at hx
        rcases List.mem_cons.mp hx with rfl | hx2
        · omega
        · have := ih (c + 1) x hx2
          omega

theorem scanFrom_sorted (skip brk : ℕ → Bool) :
    ∀ (n c : ℕ), (scanFrom skip brk c n).Sorted (· < ·) := by
  intro n
  induction n with
  | zero => intro c; simp [scanFrom]
  | succ n ih =>
    intro c
    simp only [scanFrom]
    by_cases hs : skip c = true
    · rw [if_pos hs]; exact ih (c + 1)
    · rw [if_neg hs]
      by_cases hb : brk c = true
      · rw [if_pos hb]; simp
      · rw [if_neg hb]
        refine List.sorted_cons.mpr ⟨?_, ih (c + 1)⟩
        intro b hb2
        have := scanFrom_lower skip brk n (c + 1) b hb2
        omega

theorem mem_scanFrom (skip brk : ℕ → Bool) :
    ∀ (n c x : ℕ), x ∈ scanFrom skip brk c n ↔
      (c ≤ x ∧ x < c + n ∧ skip x = false ∧ brk x = false ∧
        ∀ b, c ≤ b → b < x → (skip b = true ∨ brk b = false)) := by
  intro n
  induction n with
  | zero =>
    intro c x
    simp only [scanFrom, List.not_mem_nil, false_iff]
    rintro ⟨h1, h2, -⟩
    omega
  | succ n ih =>
    intro c x
    simp only [scanFrom]
    by_cases hs : skip c = true
    · rw [if_pos hs, ih (c + 1) x]
      constructor
      · rintro ⟨h1, h2, h3, h4, h5⟩
        refine ⟨by omega, by omega, h3, h4, ?_⟩
        intro b hb hbx
        rcases Nat.eq_or_lt_of_le hb with rfl | hb2
        · exact Or.inl hs
        · exact h5 b hb2 hbx
      · rintro ⟨h1, h2, h3, h4, h5⟩
        have hxc : x ≠ c := by
          rintro rfl
          rw [hs] at h3
          simp at h3
        exact ⟨by omega, by omega, h3, h4, fun b hb hbx => h5 b (by omega) hbx⟩
    · have hs2 : skip c = false := by simpa using hs
      rw [if_neg hs]
      by_cases hb : brk c = true
      · rw [if_pos hb]
        simp only [List.not_mem_nil, false_iff]
        rintro ⟨h1, h2, h3, h4, h5⟩
        rcases Nat.eq_or_lt_of_le h1 with rfl | hcx
        · rw [hb] at h4; exact absurd h4 (by simp)
        · rcases h5 c (Nat.le_refl c) hcx with hc1 | hc2
          · rw [hs2] at hc1; exact absurd hc1 (by simp)
          · rw [hb] at hc2; exact absurd hc2 (by simp)
      · have hb2 : brk c = false := Bool.eq_false_iff.mpr hb
        rw [if_neg hb]
        rw [List.mem_cons, ih (c + 1) x]
        constructor
        · rintro (rfl | ⟨h1, h2, h3, h4, h5⟩)
          · exact ⟨Nat.le_refl x, by omega, hs2, hb2, fun b hbb hbx => by omega⟩
          · refine ⟨by omega, by omega, h3, h4, ?_⟩
            intro b hbb hbx
            rcases Nat.eq_or_lt_of_le hbb with rfl | hbb2
            · exact Or.inr hb2
            · exact h5 b hbb2 hbx
        · rintro ⟨h1, h2, h3, h4, h5⟩
          rcases Nat.eq_or_lt_of_le h1 with rfl | hcx
          · exact Or.inl rfl
          · exact Or.inr ⟨by omega, by omega, h3, h4, fun b hbb hbx => h5 b (by omega) hbx⟩

/-- The per-voxel `continue` condition of `VoxelCollector::Collect`
(viewport.cpp line 216): `north_y - tile_height >= rect.base.y + rect.height`,
where `north_y = ComputeY(world_x, world_y, zpos * 256)` and
`zpos = stack->base + count`. -/
def columnSkip (o : ViewOrientation) (tw th : ℕ) (wx wy rBaseY : ℤ) (rHeight : ℕ)
    (base count : ℕ) : Bool :=
  decide (rBaseY + (rHeight : ℤ) ≤
    ComputeY o tw th wx wy (((base + count : ℕ) : ℤ) * 256) - th)

/-- The per-voxel `break` condition of `VoxelCollector::Collect`
(viewport.cpp line 217):
`north_y + tile_width / 2 + tile_height <= rect.base.y`. -/
def columnBreak (o : ViewOrientation) (tw th : ℕ) (wx wy rBaseY : ℤ)
    (base count : ℕ) : Bool :=
  decide (ComputeY o tw th wx wy (((base + count : ℕ) : ℤ) * 256) +
    ((tw / 2 : ℕ) : ℤ) + th ≤ rBaseY)

/-- The counts visited by the stack loop of `VoxelCollector::Collect`
(viewport.cpp lines 213-220) for one column: counts run bottom to top from 0
to `height - 1`, the skip condition continues, the break condition stops. -/
def columnScan (o : ViewOrientation) (tw th : ℕ) (wx wy rBaseY : ℤ) (rHeight : ℕ)
    (base height : ℕ) : List ℕ :=
  scanFrom (columnSkip o tw th wx wy rBaseY rHeight base)
    (columnBreak o tw th wx wy rBaseY base) 0 height

/-- Statement of claim C3 about one column: the visited counts are strictly
increasing (stack order, bottom to top), and a count is visited exactly when
it is in range, its voxel is neither skipped as below the window nor breaking
as above the window, and no voxel below it in the stack satisfied the break
condition (the first breaking voxel ends the column scan, so nothing at or
above it is visited; a merely skipped voxel does not stop the scan). -/
def columnScanSpec (o : ViewOrientation) (tw th : ℕ) (wx wy rBaseY : ℤ)
    (rHeight base height : ℕ) : Prop :=
  (columnScan o tw th wx wy rBaseY rHeight base height).Sorted (· < ·) ∧
  ∀ count, count ∈ columnScan o tw th wx wy rBaseY rHeight base height ↔
    (count < height ∧
      ¬(rBaseY + (rHeight : ℤ) ≤
          ComputeY o tw th wx wy (((base + count : ℕ) : ℤ) * 256) - th) ∧
      ¬(ComputeY o tw th wx wy (((base + count : ℕ) : ℤ) * 256) +
          ((tw / 2 : ℕ) : ℤ) + th ≤ rBaseY) ∧
      ∀ b, b < count →
        ¬(ComputeY o tw th wx wy (((base + b : ℕ) : ℤ) * 256) +
            ((tw / 2 : ℕ) : ℤ) + th ≤ rBaseY))

/-- C3: voxels of a column are visited bottom to top; a voxel whose projected
north-corner screen Y minus `tile_height` is at or below the bottom of the
visibility rectangle is skipped while the scan continues upward, and the
first voxel whose projected screen Y plus `tile_width / 2 + tile_height` is
at or above the top of the rectangle ends the column scan, so no voxel at or
above it is visited. The geometric hypothesis `0 < tw / 2 + 2 * th + rHeight`
(trivially true for the program's `tile_width = 64`, `tile_height = 16`)
makes the skip and break conditions mutually exclusive, which the claim's
reading presumes; the code tests skip first. -/
theorem c3_column_culling (o : ViewOrientation) (tw th : ℕ) (wx wy rBaseY : ℤ)
    (rHeight base height : ℕ)
    (hgeom : 0 < tw / 2 + 2 * th + rHeight) :
    columnScanSpec o tw th wx wy rBaseY rHeight base height := by
  constructor
  · exact scanFrom_sorted _ _ height 0
  · intro count
    rw [columnScan, mem_scanFrom]
    constructor
    · rintro ⟨-, h2, h3, h4, h5⟩
      refine ⟨by omega, by simpa [columnSkip] using h3,
        by simpa [columnBreak] using h4, ?_⟩
      intro b hb
      rcases h5 b (Nat.zero_le b) hb with hskip | hbrk
      · intro hbk
        have hsP : rBaseY + (rHeight : ℤ) ≤
            ComputeY o tw th wx wy (((base + b : ℕ) : ℤ) * 256) - (th : ℤ) := by
          simpa [columnSkip] using hskip
        omega
      · simpa [columnBreak] using hbrk
    · rintro ⟨h1, h2, h3, h4⟩
      refine ⟨Nat.zero_le _, by omega, by simpa [columnSkip] using h2,
        by simpa [columnBreak] using h3, ?_⟩
      intro b hb0 hb
      exact Or.inr (by simpa [columnBreak] using h4 b hb)

/-- Witness for C3 at the program's tile dimensions and a 100-pixel-high
window. -/
theorem c3_column_culling_witness :
    0 < 64 / 2 + 2 * 16 + 100 ∧ columnScanSpec .north 64 16 0 0 0 100 0 3 :=
  ⟨by decide, c3_column_culling .north 64 16 0 0 0 100 0 3 (by decide)⟩

/-- Modelled from the spec: `Clamp` of math_func.h (not in the sources here);
per the spec the pan result is clamped into `[0, worldXSize * 256]` and
`[0, worldYSize * 256]`, so `Clamp v lo hi` returns `lo` when `v ≤ lo`,
`hi` when `v ≥ hi`, and `v` otherwise. -/
def Clamp (v lo hi : ℤ) : ℤ :=
  if v ≤ lo then lo else if hi ≤ v then hi else v

theorem Clamp_mem (v lo hi : ℤ) (h : lo ≤ hi) :
    lo ≤ Clamp v lo hi ∧ Clamp v lo hi ≤ hi := by
  unfold Clamp
  split
  · omega
  · split <;> omega

theorem Clamp_eq_self (v lo hi : ℤ) (h1 : lo ≤ v) (h2 : v ≤ hi) :
    Clamp v lo hi = v := by
  unfold Clamp
  split
  · omega
  · split <;> omega

/-- View state of the `Viewport` window that panning and rotation act on
(viewport.cpp): center `(xview, yview)` in 256-per-tile fixed point, the
current orientation and the tile dimensions. The constructor sets
`tile_width = 64` and `tile_height = 16`. -/
structure ViewportState where
  xview : ℤ
  yview : ℤ
  orientation : ViewOrientation
  tileWidth : ℕ
  tileHeight : ℕ
deriving DecidableEq

/-- The pre-clamp center computed by the `switch` of `Viewport::MoveViewport`
(viewport.cpp lines 452-475): per orientation, `new_x`/`new_y` are the
current center plus combinations of `dx * 256 / tile_width` and
`dy * 512 / tile_width` (signed truncating division). -/
def moveRawCenter (v : ViewportState) (dx dy : ℤ) : ℤ × ℤ :=
  match v.orientation with
  | .north => (v.xview + Int.tdiv (dx * 256) v.tileWidth - Int.tdiv (dy * 512) v.tileWidth,
      v.yview - Int.tdiv (dx * 256) v.tileWidth - Int.tdiv (dy * 512) v.tileWidth)
  | .east => (v.xview - Int.tdiv (dx * 256) v.tileWidth - Int.tdiv (dy * 512) v.tileWidth,
      v.yview - Int.tdiv (dx * 256) v.tileWidth + Int.tdiv (dy * 512) v.tileWidth)
  | .south => (v.xview - Int.tdiv (dx * 256) v.tileWidth + Int.tdiv (dy * 512) v.tileWidth,
      v.yview + Int.tdiv (dx * 256) v.tileWidth + Int.tdiv (dy * 512) v.tileWidth)
  | .west => (v.xview + Int.tdiv (dx * 256) v.tileWidth + Int.tdiv (dy * 512) v.tileWidth,
      v.yview + Int.tdiv (dx * 256) v.tileWidth - Int.tdiv (dy * 512) v.tileWidth)

/-- The clamped center of `Viewport::MoveViewport` (viewport.cpp lines
477-478): `Clamp(new_x, 0, xsize * 256)` and `Clamp(new_y, 0, ysize * 256)`,
where `xsize`/`ysize` are the world extents `_world.GetXSize()` and
`_world.GetYSize()`. -/
def moveNewCenter (xsize ysize : ℕ) (v : ViewportState) (dx dy : ℤ) : ℤ × ℤ :=
  (Clamp (moveRawCenter v dx dy).1 0 (xsize * 256),
    Clamp (moveRawCenter v dx dy).2 0 (ysize * 256))

/-- Full `Viewport::MoveViewport` (viewport.cpp lines 449-484): compute the
clamped center and, only when it differs from the current one, assign it and
call `MarkDirty`; the returned Bool is the redraw signal. -/
def MoveViewport (xsize ysize : ℕ) (v : ViewportState) (dx dy : ℤ) :
    ViewportState × Bool :=
  if (moveNewCenter xsize ysize v dx dy).1 ≠ v.xview ∨
      (moveNewCenter xsize ysize v dx dy).2 ≠ v.yview then
    (ViewportState.mk (moveNewCenter xsize ysize v dx dy).1
      (moveNewCenter xsize ysize v dx dy).2 v.orientation v.tileWidth v.tileHeight,
      true)
  else (v, false)

theorem MoveViewport_center (xsize ysize : ℕ) (v : ViewportState) (dx dy : ℤ) :
    (MoveViewport xsize ysize v dx dy).1.xview = (moveNewCenter xsize ysize v dx dy).1 ∧
    (MoveViewport xsize ysize v dx dy).1.yview = (moveNewCenter xsize ysize v dx dy).2 ∧
    (MoveViewport xsize ysize v dx dy).1.orientation = v.orientation ∧
    (MoveViewport xsize ysize v dx dy).1.tileWidth = v.tileWidth := by
  unfold MoveViewport
  split
  · exact ⟨rfl, rfl, rfl, rfl⟩
  · rename_i h
    push_neg at h
    exact ⟨h.1.symm, h.2.symm, rfl, rfl⟩

/-- C5: after any `MoveViewport`, the view center lies within
`[0, xsize * 256] × [0, ysize * 256]`; and when the clamped new center equals
the current center (a pan fully absorbed by clamping, or a no-op delta), the
state is unchanged and no redraw signal is emitted. -/
theorem c5_move_clamped_no_spurious_redraw (xsize ysize : ℕ) (v : ViewportState)
    (dx dy : ℤ) :
    (0 ≤ (MoveViewport xsize ysize v dx dy).1.xview ∧
      (MoveViewport xsize ysize v dx dy).1.xview ≤ xsize * 256 ∧
      0 ≤ (MoveViewport xsize ysize v dx dy).1.yview ∧
      (MoveViewport xsize ysize v dx dy).1.yview ≤ ysize * 256) ∧
    (moveNewCenter xsize ysize v dx dy = (v.xview, v.yview) →
      (MoveViewport xsize ysize v dx dy).1 = v ∧
      (MoveViewport xsize ysize v dx dy).2 = false) := by
  have hc := MoveViewport_center xsize ysize v dx dy
  constructor
  · have hx := Clamp_mem (moveRawCenter v dx dy).1 0 (xsize * 256) (by positivity)
    have hy := Clamp_mem (moveRawCenter v dx dy).2 0 (ysize * 256) (by positivity)
    rw [hc.1, hc.2.1]
    exact ⟨hx.1, hx.2, hy.1, hy.2⟩
  · intro heq
    have h1 : (moveNewCenter xsize ysize v dx dy).1 = v.xview := by rw [heq]
    have h2 : (moveNewCenter xsize ysize v dx dy).2 = v.yview := by rw [heq]
    unfold MoveViewport
    rw [if_neg]
    · exact ⟨rfl, rfl⟩
    · push_neg
      exact ⟨h1, h2⟩

/-- Witness for C5: a zero delta at the world center is a no-op and emits no
redraw. -/
theorem c5_move_clamped_no_spurious_redraw_witness :
    moveNewCenter 1 1 ⟨128, 128, .north, 64, 16⟩ 0 0 = (128, 128) ∧
      ((MoveViewport 1 1 ⟨128, 128, .north, 64, 16⟩ 0 0).1 = ⟨128, 128, .north, 64, 16⟩ ∧
        (MoveViewport 1 1 ⟨128, 128, .north, 64, 16⟩ 0 0).2 = false) :=
  ⟨by decide,
    (c5_move_clamped_no_spurious_redraw 1 1 ⟨128, 128, .north, 64, 16⟩ 0 0).2 (by decide)⟩

theorem moveRaw_neg (v : ViewportState) (dx dy : ℤ) :
    (moveRawCenter v (-dx) (-dy)).1 = 2 * v.xview - (moveRawCenter v dx dy).1 ∧
    (moveRawCenter v (-dx) (-dy)).2 = 2 * v.yview - (moveRawCenter v dx dy).2 := by
  have hA : Int.tdiv (-dx * 256) v.tileWidth = -Int.tdiv (dx * 256) v.tileWidth := by
    rw [show -dx * 256 = -(dx * 256) by ring, Int.neg_tdiv]
  have hB : Int.tdiv (-dy * 512) v.tileWidth = -Int.tdiv (dy * 512) v.tileWidth := by
    rw [show -dy * 512 = -(dy * 512) by ring, Int.neg_tdiv]
  rcases v with ⟨xv, yv, o, tw, th⟩
  simp only at hA hB
  cases o <;> simp only [moveRawCenter, hA, hB] <;> exact ⟨by ring, by ring⟩

theorem moveRaw_diff (u w : ViewportState) (dx dy : ℤ)
    (ho : u.orientation = w.orientation) (htw : u.tileWidth = w.tileWidth) :
    (moveRawCenter u dx dy).1 - u.xview = (moveRawCenter w dx dy).1 - w.xview ∧
    (moveRawCenter u dx dy).2 - u.yview = (moveRawCenter w dx dy).2 - w.yview := by
  rcases u with ⟨ux, uy, uo, utw, uth⟩
  rcases w with ⟨wx, wy, wo, wtw, wth⟩
  simp only at ho htw
  subst ho
  subst htw
  cases uo <;> simp only [moveRawCenter] <;> exact ⟨by ring, by ring⟩

/-- C6: panning by `(dx, dy)` and then by `(-dx, -dy)` returns the view
center to its original value, provided neither pan triggers boundary
clamping (expressed as: the clamped center equals the raw center for both
pans). -/
theorem c6_pan_inverse (xsize ysize : ℕ) (v : ViewportState) (dx dy : ℤ)
    (h1 : moveNewCenter xsize ysize v dx dy = moveRawCenter v dx dy)
    (h2 : moveNewCenter xsize ysize (MoveViewport xsize ysize v dx dy).1 (-dx) (-dy) =
      moveRawCenter (MoveViewport xsize ysize v dx dy).1 (-dx) (-dy)) :
    (MoveViewport xsize ysize (MoveViewport xsize ysize v dx dy).1 (-dx) (-dy)).1.xview
        = v.xview ∧
    (MoveViewport xsize ysize (MoveViewport xsize ysize v dx dy).1 (-dx) (-dy)).1.yview
        = v.yview := by
  have hc1 := MoveViewport_center xsize ysize v dx dy
  have hc2 := MoveViewport_center xsize ysize (MoveViewport xsize ysize v dx dy).1 (-dx) (-dy)
  have hs1x : (MoveViewport xsize ysize v dx dy).1.xview = (moveRawCenter v dx dy).1 := by
    rw [hc1.1, h1]
  have hs1y : (MoveViewport xsize ysize v dx dy).1.yview = (moveRawCenter v dx dy).2 := by
    rw [hc1.2.1, h1]
  have hneg := moveRaw_neg (MoveViewport xsize ysize v dx dy).1 dx dy
  have hdiff := moveRaw_diff (MoveViewport xsize ysize v dx dy).1 v dx dy hc1.2.2.1 hc1.2.2.2
  constructor
  · rw [hc2.1, h2, hneg.1]
    have hd1 := hdiff.1
    omega
  · rw [hc2.2.1, h2, hneg.2]
    have hd2 := hdiff.2
    omega

/-- Witness for C6: a pan well inside a 10-tile world, followed by its
negation, restores the center. -/
theorem c6_pan_inverse_witness :
    moveNewCenter 10 10 ⟨1280, 1280, .north, 64, 16⟩ 3 5 =
        moveRawCenter ⟨1280, 1280, .north, 64, 16⟩ 3 5 ∧
      moveNewCenter 10 10 (MoveViewport 10 10 ⟨1280, 1280, .north, 64, 16⟩ 3 5).1 (-3) (-5) =
        moveRawCenter (MoveViewport 10 10 ⟨1280, 1280, .north, 64, 16⟩ 3 5).1 (-3) (-5) ∧
      ((MoveViewport 10 10
            (MoveViewport 10 10 ⟨1280, 1280, .north, 64, 16⟩ 3 5).1 (-3) (-5)).1.xview = 1280 ∧
        (MoveViewport 10 10
            (MoveViewport 10 10 ⟨1280, 1280, .north, 64, 16⟩ 3 5).1 (-3) (-5)).1.yview = 1280) :=
  ⟨by decide, by decide,
    c6_pan_inverse 10 10 ⟨1280, 1280, .north, 64, 16⟩ 3 5 (by decide) (by decide)⟩

/-- Orientation update of `Viewport::Rotate` (viewport.cpp line 439):
`(ViewOrientation)((orientation + VOR_NUM_ORIENT + ((direction > 0) ? 1 : -1)) % VOR_NUM_ORIENT)`
computed in signed integer arithmetic, then cast back to the enumeration. -/
def RotateOrientation (o : ViewOrientation) (direction : ℤ) : ViewOrientation :=
  ViewOrientation.ofVal
    ((((o.val : ℤ) + 4 + (if 0 < direction then 1 else -1)) % 4).toNat)

/-- Full `Viewport::Rotate` (viewport.cpp lines 437-442): update the
orientation and unconditionally call `MarkDirty`; the Bool is the redraw
signal. The cursor recomputation does not touch the view center. -/
def Rotate (v : ViewportState) (direction : ℤ) : ViewportState × Bool :=
  (ViewportState.mk v.xview v.yview (RotateOrientation v.orientation direction)
    v.tileWidth v.tileHeight, true)

/-- Statement of claim C8: four rotations in one fixed direction restore the
orientation; a single rotation advances the orientation value by `+1` modulo
4 for a positive direction and by `-1` (that is, `+3`) modulo 4 for a
negative one; and a rotation always signals a redraw. -/
def rotateSpec (v : ViewportState) (d : ℤ) : Prop :=
  (Rotate ((Rotate ((Rotate ((Rotate v d).1) d).1) d).1) d).1.orientation =
      v.orientation ∧
  (0 < d → ((Rotate v d).1.orientation).val = (v.orientation.val + 1) % 4) ∧
  (d < 0 → ((Rotate v d).1.orientation).val = (v.orientation.val + 3) % 4) ∧
  (Rotate v d).2 = true

/-- C8: for every starting orientation and fixed non-zero direction, four
rotations return to the start, each rotation is a `±1` step modulo 4
(clockwise for positive direction), and a redraw is always signalled. -/
theorem c8_rotate_group (v : ViewportState) (d : ℤ) (_hd : d ≠ 0) :
    rotateSpec v d := by
  have key : ∀ o : ViewOrientation,
      (0 < d → (RotateOrientation o d).val = (o.val + 1) % 4) ∧
      (d < 0 → (RotateOrientation o d).val = (o.val + 3) % 4) := by
    intro o
    by_cases hp : 0 < d
    · refine ⟨fun _ => ?_, fun hn => absurd hp (by omega)⟩
      cases o <;> simp only [RotateOrientation, if_pos hp] <;> decide
    · refine ⟨fun hp2 => absurd hp2 hp, fun _ => ?_⟩
      cases o <;> simp only [RotateOrientation, if_neg hp] <;> decide
  have cyc : ∀ o : ViewOrientation,
      RotateOrientation (RotateOrientation (RotateOrientation
        (RotateOrientation o d) d) d) d = o := by
    intro o
    by_cases hp : 0 < d
    · cases o <;> simp only [RotateOrientation, if_pos hp] <;> decide
    · cases o <;> simp only [RotateOrientation, if_neg hp] <;> decide
  exact ⟨cyc v.orientation, (key v.orientation).1, (key v.orientation).2, rfl⟩

/-- Witness for C8 with a clockwise rotation. -/
theorem c8_rotate_group_witness :
    (1 : ℤ) ≠ 0 ∧ rotateSpec ⟨0, 0, .north, 64, 16⟩ 1 :=
  ⟨by decide, c8_rotate_group ⟨0, 0, .north, 64, 16⟩ 1 (by decide)⟩

/-- Ground type of a surface voxel: either the sentinel `GTP_INVALID` or a
valid ground type value. -/
inductive GroundType where
  | invalid
  | valid (t : ℕ)
deriving DecidableEq

/-- Ground data of a surface voxel (`svd->ground`): type and slope. -/
structure GroundData where
  type : GroundType
  slope : ℕ
deriving DecidableEq

/-- A voxel as interpreted by the collectors: `VT_SURFACE` with its ground
data, or any other voxel type, which both `CollectVoxel` visitors ignore
(the `default` arm of their `switch`). -/
inductive Voxel where
  | surface (ground : GroundData)
  | nonSurface
deriving DecidableEq

/-- A sprite image as used by the collectors: origin offsets `xoffset` and
`yoffset`, dimensions, and the pixel sampler `GetPixel` (modelled as a total
function on integer offsets; the viewport code itself performs only the
negativity checks before sampling). -/
structure Sprite where
  xoffset : ℤ
  yoffset : ℤ
  width : ℕ
  height : ℕ
  pixelAt : ℤ → ℤ → ℕ

/-- The sprite provider `_sprite_store` as used by the collectors:
`GetSurfaceSprite(type, slope, tile_width, orientation)` and
`GetCursorSprite(slope, tile_width, orientation)`, both possibly `NULL`. -/
structure SpriteStore where
  getSurfaceSprite : GroundType → ℕ → ℕ → ViewOrientation → Option Sprite
  getCursorSprite : ℕ → ℕ → ViewOrientation → Option Sprite

/-- Shared data of a `VoxelCollector` (viewport.cpp lines 23-89): view
orientation, tile dimensions, the screen rectangle of interest, and the
sprite provider. -/
structure CollectorInfo where
  orient : ViewOrientation
  tileWidth : ℕ
  tileHeight : ℕ
  rectBaseX : ℤ
  rectBaseY : ℤ
  rectWidth : ℕ
  rectHeight : ℕ
  store : SpriteStore

/-- Extra state of a `SpriteCollector` (viewport.cpp lines 107-126): the
display offset of the window and the optional tracked mouse voxel. -/
structure SpriteCollectorInfo where
  info : CollectorInfo
  xoffset : ℤ
  yoffset : ℤ
  drawMouseCursor : Bool
  mousex : ℕ
  mousey : ℕ
  mousez : ℕ

/-- One entry of the `draw_images` multimap (`DrawData` plus its key): the
sprite, the optional cursor sprite, and the screen base coordinate. -/
structure DrawData where
  spr : Sprite
  cursor : Option Sprite
  baseX : ℤ
  baseY : ℤ

/-- One invocation of `SpriteCollector::CollectVoxel` (viewport.cpp lines
270-300) on the voxel at `(xpos, ypos, zpos)` with projected north corner
`(xnorth, ynorth)`. The `draw_images` multimap is modelled as the list of
inserted `(key, DrawData)` pairs in insertion order (the multimap preserves
insertion order among equal keys; no claim depends on the key-sorted
iteration order). A surface voxel with `GTP_INVALID` ground or without a
resolved sprite inserts nothing. -/
def SpriteCollectorCollectVoxel (sc : SpriteCollectorInfo)
    (drawImages : List (ℤ × DrawData)) (vx : Voxel) (xpos ypos zpos : ℕ)
    (xnorth ynorth : ℤ) : List (ℤ × DrawData) :=
  match vx with
  | .surface ground =>
    if ground.type = .invalid then drawImages
    else
      match sc.info.store.getSurfaceSprite ground.type ground.slope
          sc.info.tileWidth sc.info.orient with
      | none => drawImages
      | some spr =>
        drawImages ++
          [(spriteDepthKey sc.info.orient xpos ypos zpos,
            DrawData.mk spr
              (if sc.drawMouseCursor ∧ xpos = sc.mousex ∧ ypos = sc.mousey ∧
                  zpos = sc.mousez then
                sc.info.store.getCursorSprite ground.slope sc.info.tileWidth sc.info.orient
              else none)
              (sc.xoffset + xnorth + spr.xoffset - sc.info.rectBaseX)
              (sc.yoffset + ynorth + spr.yoffset - sc.info.rectBaseY))]
  | .nonSurface => drawImages

/-- Result state of a `PixelFinder` (viewport.cpp lines 144-149): `found`,
the best depth key so far (`distance`), the sampled pixel value, and the
recorded voxel coordinates. -/
structure PixelFinderState where
  found : Bool
  distance : ℤ
  pixel : ℕ
  xvoxel : ℕ
  yvoxel : ℕ
  zvoxel : ℕ
deriving DecidableEq

/-- Initial `PixelFinder` state as set by its constructor (viewport.cpp
lines 303-312). -/
def initPixelFinderState : PixelFinderState :=
  PixelFinderState.mk false 0 0 0 0 0

/-- One invocation of `PixelFinder::CollectVoxel` (viewport.cpp lines
327-362): skip non-surface voxels, invalid ground, unresolved sprites;
skip when an at-least-as-near result exists (`found && dist <= distance`);
compute the probe offset inside the sprite (an `int16` narrowing of
`rect.base - north corner - sprite offset`) and reject only negative
offsets; skip fully transparent pixels (`GetPixel` result 0); otherwise
record the voxel. -/
def PixelFinderCollectVoxel (info : CollectorInfo) (s : PixelFinderState)
    (vx : Voxel) (xpos ypos zpos : ℕ) (xnorth ynorth : ℤ) : PixelFinderState :=
  match vx with
  | .surface ground =>
    if ground.type = .invalid then s
    else
      match info.store.getSurfaceSprite ground.type ground.slope
          info.tileWidth info.orient with
      | none => s
      | some spr =>
        if s.found = true ∧ pixelDepthKey info.orient xpos ypos zpos ≤ s.distance then s
        else
          if toInt16 (info.rectBaseX - xnorth - spr.xoffset) < 0 ∨
              toInt16 (info.rectBaseY - ynorth - spr.yoffset) < 0 then s
          else
            if spr.pixelAt (toInt16 (info.rectBaseX - xnorth - spr.xoffset))
                (toInt16 (info.rectBaseY - ynorth - spr.yoffset)) = 0 then s
            else
              PixelFinderState.mk true (pixelDepthKey info.orient xpos ypos zpos)
                (spr.pixelAt (toInt16 (info.rectBaseX - xnorth - spr.xoffset))
                  (toInt16 (info.rectBaseY - ynorth - spr.yoffset)))
                xpos ypos zpos
  | .nonSurface => s

/-- A vertical stack of voxels at one world column (`VoxelStack` of map.h as
used here): a base height and the voxels bottom to top; the stack height is
the length of the voxel list. -/
structure VoxelStack where
  base : ℕ
  voxels : List Voxel

/-- The world accessor `_world` as used by `VoxelCollector::Collect`:
extents in tiles and the stack at each column. -/
structure WorldData where
  xsize : ℕ
  ysize : ℕ
  stackAt : ℕ → ℕ → VoxelStack

/-- One voxel visit forwarded to `CollectVoxel`: the voxel, its world
position and its projected north corner. -/
structure Visit where
  vx : Voxel
  xpos : ℕ
  ypos : ℕ
  zpos : ℕ
  xnorth : ℤ
  ynorth : ℤ

/-- The visits of one column `(xpos, ypos)` performed by
`VoxelCollector::Collect` (viewport.cpp lines 212-220): the counts kept by
`columnScan` are mapped to visits at `zpos = stack->base + count` with the
column's north corner. -/
def columnVisits (info : CollectorInfo) (w : WorldData) (xpos ypos : ℕ)
    (wx wy northX : ℤ) : List Visit :=
  (columnScan info.orient info.tileWidth info.tileHeight wx wy info.rectBaseY
      info.rectHeight (w.stackAt xpos ypos).base (w.stackAt xpos ypos).voxels.length).map
    fun count =>
      Visit.mk ((w.stackAt xpos ypos).voxels.getD count .nonSurface) xpos ypos
        ((w.stackAt xpos ypos).base + count) northX
        (ComputeY info.orient info.tileWidth info.tileHeight wx wy
          ((((w.stackAt xpos ypos).base + count : ℕ) : ℤ) * 256))

/-- The full voxel visit sequence of `VoxelCollector::Collect` (viewport.cpp
lines 202-223): world X ascending, world Y ascending, stack bottom to top;
`world_x`/`world_y` get a one-tile offset for the orientations listed in the
source; a column whose projected north corner cannot overlap the rectangle
horizontally (tested with `tile_width / 2` on both sides) is skipped. -/
def CollectVisits (info : CollectorInfo) (w : WorldData) : List Visit :=
  (List.range w.xsize).flatMap fun xpos =>
    (List.range w.ysize).flatMap fun ypos =>
      if ComputeX info.orient info.tileWidth
            (((xpos + (if info.orient = .south ∨ info.orient = .west then 1 else 0) : ℕ) : ℤ) * 256)
            (((ypos + (if info.orient = .south ∨ info.orient = .east then 1 else 0) : ℕ) : ℤ) * 256) +
          ((info.tileWidth / 2 : ℕ) : ℤ) ≤ info.rectBaseX then []
      else if info.rectBaseX + (info.rectWidth : ℤ) ≤
          ComputeX info.orient info.tileWidth
            (((xpos + (if info.orient = .south ∨ info.orient = .west then 1 else 0) : ℕ) : ℤ) * 256)
            (((ypos + (if info.orient = .south ∨ info.orient = .east then 1 else 0) : ℕ) : ℤ) * 256) -
          ((info.tileWidth / 2 : ℕ) : ℤ) then []
      else
        columnVisits info w xpos ypos
          (((xpos + (if info.orient = .south ∨ info.orient = .west then 1 else 0) : ℕ) : ℤ) * 256)
          (((ypos + (if info.orient = .south ∨ info.orient = .east then 1 else 0) : ℕ) : ℤ) * 256)
          (ComputeX info.orient info.tileWidth
            (((xpos + (if info.orient = .south ∨ info.orient = .west then 1 else 0) : ℕ) : ℤ) * 256)
            (((ypos + (if info.orient = .south ∨ info.orient = .east then 1 else 0) : ℕ) : ℤ) * 256))

/-- A full `SpriteCollector` pass: `Collect` over the world, folding
`SpriteCollector::CollectVoxel` over the visits, starting from the empty
`draw_images` collection. -/
def SpriteCollectorCollect (sc : SpriteCollectorInfo) (w : WorldData) :
    List (ℤ × DrawData) :=
  (CollectVisits sc.info w).foldl
    (fun acc v => SpriteCollectorCollectVoxel sc acc v.vx v.xpos v.ypos v.zpos v.xnorth v.ynorth)
    []

/-- A full `PixelFinder` pass: `Collect` over the world, folding
`PixelFinder::CollectVoxel` over the visits from the constructor state. -/
def PixelFinderCollect (info : CollectorInfo) (w : WorldData) : PixelFinderState :=
  (CollectVisits info w).foldl
    (fun s v => PixelFinderCollectVoxel info s v.vx v.xpos v.ypos v.zpos v.xnorth v.ynorth)
    initPixelFinderState

theorem foldl_fixed {α β : Type} (f : β → α → β) (l : List α) (init : β)
    (h : ∀ s a, a ∈ l → f s a = s) : l.foldl f init = init := by
  induction l generalizing init with
  | nil => rfl
  | cons a t ih =>
    rw [List.foldl_cons, h init a (List.mem_cons_self a t)]
    exact ih init fun s b hb => h s b (List.mem_cons_of_mem a hb)

theorem pixel_skip_of_found (info : CollectorInfo) (s : PixelFinderState)
    (vx : Voxel) (xpos ypos zpos : ℕ) (xn yn : ℤ) (hf : s.found = true)
    (hle : pixelDepthKey info.orient xpos ypos zpos ≤ s.distance) :
    PixelFinderCollectVoxel info s vx xpos ypos zpos xn yn = s := by
  cases vx with
  | nonSurface => rfl
  | surface g =>
    simp only [PixelFinderCollectVoxel]
    by_cases hg : g.type = GroundType.invalid
    · rw [if_pos hg]
    · rw [if_neg hg]
      cases hsp : info.store.getSurfaceSprite g.type g.slope info.tileWidth info.orient with
      | none => rfl
      | some spr => exact if_pos ⟨hf, hle⟩

/-- C4: in the Pixel Finder, any voxel is skipped (the state is unchanged)
whenever a result was already found whose recorded depth key is at least the
candidate's key (`found && dist <= distance`, viewport.cpp line 339); and
consequently, when two candidate voxels have identical depth keys and the
first is recorded (resolved sprite, non-negative probe offsets, opaque
pixel), processing the second afterwards leaves the first one recorded. -/
theorem c4_first_found_wins_ties :
    (∀ (info : CollectorInfo) (s : PixelFinderState) (vx : Voxel)
        (xpos ypos zpos : ℕ) (xn yn : ℤ),
      s.found = true → pixelDepthKey info.orient xpos ypos zpos ≤ s.distance →
      PixelFinderCollectVoxel info s vx xpos ypos zpos xn yn = s) ∧
    (∀ (info : CollectorInfo) (s0 : PixelFinderState) (g1 g2 : GroundData)
        (spr1 spr2 : Sprite) (x1 y1 z1 x2 y2 z2 : ℕ) (xn1 yn1 xn2 yn2 : ℤ),
      g1.type ≠ .invalid →
      info.store.getSurfaceSprite g1.type g1.slope info.tileWidth info.orient = some spr1 →
      ¬(s0.found = true ∧ pixelDepthKey info.orient x1 y1 z1 ≤ s0.distance) →
      ¬(toInt16 (info.rectBaseX - xn1 - spr1.xoffset) < 0 ∨
          toInt16 (info.rectBaseY - yn1 - spr1.yoffset) < 0) →
      spr1.pixelAt (toInt16 (info.rectBaseX - xn1 - spr1.xoffset))
          (toInt16 (info.rectBaseY - yn1 - spr1.yoffset)) ≠ 0 →
      g2.type ≠ .invalid →
      info.store.getSurfaceSprite g2.type g2.slope info.tileWidth info.orient = some spr2 →
      pixelDepthKey info.orient x2 y2 z2 = pixelDepthKey info.orient x1 y1 z1 →
      (PixelFinderCollectVoxel info
          (PixelFinderCollectVoxel info s0 (.surface g1) x1 y1 z1 xn1 yn1)
          (.surface g2) x2 y2 z2 xn2 yn2 =
        PixelFinderCollectVoxel info s0 (.surface g1) x1 y1 z1 xn1 yn1 ∧
      (PixelFinderCollectVoxel info s0 (.surface g1) x1 y1 z1 xn1 yn1).xvoxel = x1 ∧
      (PixelFinderCollectVoxel info s0 (.surface g1) x1 y1 z1 xn1 yn1).yvoxel = y1 ∧
      (PixelFinderCollectVoxel info s0 (.surface g1) x1 y1 z1 xn1 yn1).zvoxel = z1)) := by
  constructor
  · exact fun info s vx xpos ypos zpos xn yn hf hle =>
      pixel_skip_of_found info s vx xpos ypos zpos xn yn hf hle
  · intro info s0 g1 g2 spr1 spr2 x1 y1 z1 x2 y2 z2 xn1 yn1 xn2 yn2
      hg1 hsp1 hns hxo hpx hg2 hsp2 hkey
    have hstep1 : PixelFinderCollectVoxel info s0 (.surface g1) x1 y1 z1 xn1 yn1 =
        PixelFinderState.mk true (pixelDepthKey info.orient x1 y1 z1)
          (spr1.pixelAt (toInt16 (info.rectBaseX - xn1 - spr1.xoffset))
            (toInt16 (info.rectBaseY - yn1 - spr1.yoffset))) x1 y1 z1 := by
      simp only [PixelFinderCollectVoxel, hsp1]
      rw [if_neg hg1, if_neg hns, if_neg hxo, if_neg hpx]
    refine ⟨?_, by rw [hstep1], by rw [hstep1], by rw [hstep1]⟩
    rw [hstep1]
    exact pixel_skip_of_found info _ (.surface g2) x2 y2 z2 xn2 yn2 rfl (le_of_eq hkey)

/-- Ground data with a valid ground type, used by concrete witnesses. -/
def gValid : GroundData := GroundData.mk (GroundType.valid 3) 0

/-- A fully opaque 64x32 sprite with zero origin offsets. -/
def unitSprite : Sprite := Sprite.mk 0 0 64 32 (fun _ _ => 1)

/-- A sprite provider that resolves every surface request to `unitSprite`
and has no cursor sprites. -/
def unitStore : SpriteStore :=
  SpriteStore.mk (fun _ _ _ _ => some unitSprite) (fun _ _ _ => none)

/-- Collector data at north orientation, the program's tile dimensions, a
1x1 probe rectangle at the origin, and `unitStore`. -/
def northInfo : CollectorInfo := CollectorInfo.mk .north 64 16 0 0 1 1 unitStore

/-- Witness for C4: voxels `(1,0,0)` and `(0,1,0)` have the identical north
depth key 256; after the first is recorded, processing the second changes
nothing. -/
theorem c4_first_found_wins_ties_witness :
    gValid.type ≠ .invalid ∧
    unitStore.getSurfaceSprite gValid.type gValid.slope 64 .north = some unitSprite ∧
    pixelDepthKey .north 0 1 0 = pixelDepthKey .north 1 0 0 ∧
    (PixelFinderCollectVoxel northInfo
        (PixelFinderCollectVoxel northInfo initPixelFinderState (.surface gValid) 1 0 0 0 0)
        (.surface gValid) 0 1 0 0 0 =
      PixelFinderCollectVoxel northInfo initPixelFinderState (.surface gValid) 1 0 0 0 0 ∧
    (PixelFinderCollectVoxel northInfo initPixelFinderState (.surface gValid) 1 0 0 0 0).xvoxel = 1 ∧
    (PixelFinderCollectVoxel northInfo initPixelFinderState (.surface gValid) 1 0 0 0 0).yvoxel = 0 ∧
    (PixelFinderCollectVoxel northInfo initPixelFinderState (.surface gValid) 1 0 0 0 0).zvoxel = 0) :=
  ⟨by decide, rfl, by decide,
    c4_first_found_wins_ties.2 northInfo initPixelFinderState gValid gValid
      unitSprite unitSprite 1 0 0 0 1 0 0 0 0 0
      (by decide) rfl (by decide) (by decide) (by decide) (by decide) rfl (by decide)⟩

theorem sprite_skip_of_invalid (sc : SpriteCollectorInfo)
    (acc : List (ℤ × DrawData)) (g : GroundData) (xpos ypos zpos : ℕ)
    (xn yn : ℤ) (hg : g.type = .invalid) :
    SpriteCollectorCollectVoxel sc acc (.surface g) xpos ypos zpos xn yn = acc := by
  simp only [SpriteCollectorCollectVoxel]
  rw [if_pos hg]

theorem pixel_skip_of_invalid (info : CollectorInfo) (s : PixelFinderState)
    (g : GroundData) (xpos ypos zpos : ℕ) (xn yn : ℤ)
    (hg : g.type = .invalid) :
    PixelFinderCollectVoxel info s (.surface g) xpos ypos zpos xn yn = s := by
  simp only [PixelFinderCollectVoxel]
  rw [if_pos hg]

theorem mem_of_mem_ite_nil {α : Type} (p : Prop) [Decidable p] (l : List α)
    (v : α) (hv : v ∈ (if p then ([] : List α) else l)) : v ∈ l := by
  split at hv
  · exact absurd hv (List.not_mem_nil v)
  · exact hv

theorem mem_CollectVisits_single (info : CollectorInfo) (w : WorldData)
    (g : GroundData) (hx : w.xsize = 1) (hy : w.ysize = 1)
    (hstack : (w.stackAt 0 0).voxels = [Voxel.surface g]) :
    ∀ v ∈ CollectVisits info w, v.vx = Voxel.surface g ∨ v.vx = Voxel.nonSurface := by
  intro v hv
  have hr1 : List.range w.xsize = [0] := by rw [hx]; rfl
  have hr2 : List.range w.ysize = [0] := by rw [hy]; rfl
  simp only [CollectVisits, hr1, hr2, List.flatMap_cons, List.flatMap_nil,
    List.append_nil] at hv
  have hv1 := mem_of_mem_ite_nil _ _ v hv
  have hv2 := mem_of_mem_ite_nil _ _ v hv1
  simp only [columnVisits, List.mem_map] at hv2
  obtain ⟨count, hcount, hveq⟩ := hv2
  subst hveq
  cases count with
  | zero =>
    left
    show (w.stackAt 0 0).voxels.getD 0 Voxel.nonSurface = Voxel.surface g
    rw [hstack]
    rfl
  | succ n =>
    right
    show (w.stackAt 0 0).voxels.getD (n + 1) Voxel.nonSurface = Voxel.nonSurface
    rw [hstack]
    rfl

/-- C9: a visited surface voxel whose ground type is `GTP_INVALID` leaves
both collectors unchanged (no draw command inserted, no result recorded);
and over a 1x1 world whose single stack holds exactly one surface voxel with
invalid ground type, a full Sprite Collector pass yields zero draw commands
and a full Pixel Finder pass yields `found = false`. These are ordinary
control-flow outcomes, not errors. -/
theorem c9_invalid_ground_contributes_nothing (sc : SpriteCollectorInfo)
    (info : CollectorInfo) (imgs : List (ℤ × DrawData)) (s : PixelFinderState)
    (g : GroundData) (xpos ypos zpos : ℕ) (xn yn : ℤ) (w : WorldData)
    (hg : g.type = .invalid) (hx : w.xsize = 1) (hy : w.ysize = 1)
    (hstack : (w.stackAt 0 0).voxels = [Voxel.surface g]) :
    SpriteCollectorCollectVoxel sc imgs (.surface g) xpos ypos zpos xn yn = imgs ∧
    PixelFinderCollectVoxel info s (.surface g) xpos ypos zpos xn yn = s ∧
    SpriteCollectorCollect sc w = [] ∧
    (PixelFinderCollect info w).found = false := by
  refine ⟨sprite_skip_of_invalid sc imgs g xpos ypos zpos xn yn hg,
    pixel_skip_of_invalid info s g xpos ypos zpos xn yn hg, ?_, ?_⟩
  · unfold SpriteCollectorCollect
    apply foldl_fixed
    intro acc a ha
    rcases mem_CollectVisits_single sc.info w g hx hy hstack a ha with h | h
    · rw [h]
      exact sprite_skip_of_invalid sc acc g a.xpos a.ypos a.zpos a.xnorth a.ynorth hg
    · rw [h]
      rfl
  · have hfold : PixelFinderCollect info w = initPixelFinderState := by
      unfold PixelFinderCollect
      apply foldl_fixed
      intro st a ha
      rcases mem_CollectVisits_single info w g hx hy hstack a ha with h | h
      · rw [h]
        exact pixel_skip_of_invalid info st g a.xpos a.ypos a.zpos a.xnorth a.ynorth hg
      · rw [h]
        rfl
    rw [hfold]
    rfl

/-- Ground data with the invalid ground type sentinel. -/
def gInvalid : GroundData := GroundData.mk .invalid 0

/-- A 1x1 world whose single stack holds one surface voxel with invalid
ground type. -/
def invalidWorld : WorldData :=
  WorldData.mk 1 1 (fun _ _ => VoxelStack.mk 0 [Voxel.surface gInvalid])

/-- Sprite collector data over `northInfo` with no offsets and no mouse
cursor. -/
def northSpriteInfo : SpriteCollectorInfo :=
  SpriteCollectorInfo.mk northInfo 0 0 false 0 0 0

/-- Witness for C9 over the concrete invalid-ground world; the sprite store
would even resolve a sprite, but the invalid ground type short-circuits. -/
theorem c9_invalid_ground_contributes_nothing_witness :
    gInvalid.type = .invalid ∧ invalidWorld.xsize = 1 ∧ invalidWorld.ysize = 1 ∧
    (invalidWorld.stackAt 0 0).voxels = [Voxel.surface gInvalid] ∧
    (SpriteCollectorCollectVoxel northSpriteInfo [] (.surface gInvalid) 0 0 0 0 0 = [] ∧
      PixelFinderCollectVoxel northInfo initPixelFinderState (.surface gInvalid) 0 0 0 0 0 =
        initPixelFinderState ∧
      SpriteCollectorCollect northSpriteInfo invalidWorld = [] ∧
      (PixelFinderCollect northInfo invalidWorld).found = false) :=
  ⟨by decide, rfl, rfl, rfl,
    c9_invalid_ground_contributes_nothing northSpriteInfo northInfo []
      initPixelFinderState gInvalid 0 0 0 0 0 invalidWorld
      (by decide) rfl rfl rfl⟩

/-- The `GetPixel` invocation of `PixelFinder::CollectVoxel` (viewport.cpp
lines 341-346), mirrored guard by guard: returns the sprite and the offsets
passed to `GetPixel` when control reaches the sampling call, and `none` when
the voxel is rejected before sampling. The only offset test performed by the
code before sampling is `xoffset < 0 || yoffset < 0`. -/
def PixelFinderSampleCall (info : CollectorInfo) (s : PixelFinderState)
    (vx : Voxel) (xpos ypos zpos : ℕ) (xnorth ynorth : ℤ) :
    Option (Sprite × ℤ × ℤ) :=
  match vx with
  | .surface ground =>
    if ground.type = .invalid then none
    else
      match info.store.getSurfaceSprite ground.type ground.slope
          info.tileWidth info.orient with
      | none => none
      | some spr =>
        if s.found = true ∧ pixelDepthKey info.orient xpos ypos zpos ≤ s.distance then
          none
        else
          if toInt16 (info.rectBaseX - xnorth - spr.xoffset) < 0 ∨
              toInt16 (info.rectBaseY - ynorth - spr.yoffset) < 0 then none
          else
            some (spr, toInt16 (info.rectBaseX - xnorth - spr.xoffset),
              toInt16 (info.rectBaseY - ynorth - spr.yoffset))
  | .nonSurface => none

/-- A fully opaque 1x1 sprite with zero origin offsets. -/
def tinySprite : Sprite := Sprite.mk 0 0 1 1 (fun _ _ => 1)

/-- A sprite provider that resolves every surface request to `tinySprite`. -/
def tinyStore : SpriteStore :=
  SpriteStore.mk (fun _ _ _ _ => some tinySprite) (fun _ _ _ => none)

/-- Collector data whose probe rectangle starts at `(5, 7)`, so a voxel
projected to the origin yields probe offsets `(5, 7)` inside `tinySprite`. -/
def probeInfo : CollectorInfo := CollectorInfo.mk .north 64 16 5 7 1 1 tinyStore

/-- C10: the Pixel Finder rejects a candidate with a resolved sprite only
when a computed probe offset is negative; there is no upper-bound check
against the sprite's width or height, so whenever the depth guard passes and
both offsets are non-negative, `GetPixel` is invoked with exactly those
offsets — and for a concrete probe the sampled offsets `(5, 7)` lie at or
beyond the 1x1 sprite's dimensions, so safety depends on `GetPixel`
tolerating out-of-range offsets. -/
theorem c10_no_upper_bound_check :
    (∀ (info : CollectorInfo) (s : PixelFinderState) (g : GroundData)
        (spr : Sprite) (xpos ypos zpos : ℕ) (xn yn : ℤ),
      g.type ≠ .invalid →
      info.store.getSurfaceSprite g.type g.slope info.tileWidth info.orient = some spr →
      ¬(s.found = true ∧ pixelDepthKey info.orient xpos ypos zpos ≤ s.distance) →
      0 ≤ toInt16 (info.rectBaseX - xn - spr.xoffset) →
      0 ≤ toInt16 (info.rectBaseY - yn - spr.yoffset) →
      PixelFinderSampleCall info s (.surface g) xpos ypos zpos xn yn =
        some (spr, toInt16 (info.rectBaseX - xn - spr.xoffset),
          toInt16 (info.rectBaseY - yn - spr.yoffset))) ∧
    (∀ (info : CollectorInfo) (s : PixelFinderState) (g : GroundData)
        (spr : Sprite) (xpos ypos zpos : ℕ) (xn yn : ℤ),
      PixelFinderSampleCall info s (.surface g) xpos ypos zpos xn yn =
        some (spr, toInt16 (info.rectBaseX - xn - spr.xoffset),
          toInt16 (info.rectBaseY - yn - spr.yoffset)) →
      spr.pixelAt (toInt16 (info.rectBaseX - xn - spr.xoffset))
          (toInt16 (info.rectBaseY - yn - spr.yoffset)) ≠ 0 →
      PixelFinderCollectVoxel info s (.surface g) xpos ypos zpos xn yn =
        PixelFinderState.mk true (pixelDepthKey info.orient xpos ypos zpos)
          (spr.pixelAt (toInt16 (info.rectBaseX - xn - spr.xoffset))
            (toInt16 (info.rectBaseY - yn - spr.yoffset))) xpos ypos zpos) ∧
    (PixelFinderSampleCall probeInfo initPixelFinderState (.surface gValid) 0 0 0 0 0 =
        some (tinySprite, 5, 7) ∧
      (tinySprite.width : ℤ) ≤ 5 ∧ (tinySprite.height : ℤ) ≤ 7) := by
  refine ⟨?_, ?_, rfl, by decide, by decide⟩
  · intro info s g spr xpos ypos zpos xn yn hg hsp hns hx0 hy0
    simp only [PixelFinderSampleCall, hsp]
    rw [if_neg hg, if_neg hns, if_neg]
    push_neg
    exact ⟨hx0, hy0⟩
  · intro info s g spr xpos ypos zpos xn yn hcall hpx
    simp only [PixelFinderSampleCall] at hcall
    by_cases hg : g.type = GroundType.invalid
    · rw [if_pos hg] at hcall
      exact absurd hcall (by simp)
    · rw [if_neg hg] at hcall
      cases hsp : info.store.getSurfaceSprite g.type g.slope info.tileWidth info.orient with
      | none =>
        simp only [hsp] at hcall
        exact absurd hcall (by simp)
      | some spr2 =>
        simp only [hsp] at hcall
        simp only [PixelFinderCollectVoxel, hsp]
        rw [if_neg hg]
        by_cases hns : s.found = true ∧ pixelDepthKey info.orient xpos ypos zpos ≤ s.distance
        · rw [if_pos hns] at hcall
          exact absurd hcall (by simp)
        · rw [if_neg hns] at hcall
          rw [if_neg hns]
          by_cases hneg : toInt16 (info.rectBaseX - xn - spr2.xoffset) < 0 ∨
              toInt16 (info.rectBaseY - yn - spr2.yoffset) < 0
          · rw [if_pos hneg] at hcall
            exact absurd hcall (by simp)
          · rw [if_neg hneg] at hcall
            have hpair := Option.some_inj.mp hcall
            have hspr : spr2 = spr := (Prod.ext_iff.mp hpair).1
            subst hspr
            rw [if_neg hneg, if_neg hpx]

/-- Witness for C10: the reach conclusion at the concrete out-of-range
probe, with each hypothesis discharged. -/
theorem c10_no_upper_bound_check_witness :
    gValid.type ≠ .invalid ∧
    tinyStore.getSurfaceSprite gValid.type gValid.slope 64 .north = some tinySprite ∧
    ¬(initPixelFinderState.found = true ∧ pixelDepthKey .north 0 0 0 ≤
        initPixelFinderState.distance) ∧
    0 ≤ toInt16 (5 - 0 - tinySprite.xoffset) ∧
    0 ≤ toInt16 (7 - 0 - tinySprite.yoffset) ∧
    PixelFinderSampleCall probeInfo initPixelFinderState (.surface gValid) 0 0 0 0 0 =
      some (tinySprite, toInt16 (probeInfo.rectBaseX - 0 - tinySprite.xoffset),
        toInt16 (probeInfo.rectBaseY - 0 - tinySprite.yoffset)) :=
  ⟨by decide, rfl, by decide, by decide, by decide,
    c10_no_upper_bound_check.1 probeInfo initPixelFinderState gValid tinySprite
      0 0 0 0 0 (by decide) rfl (by decide) (by decide) (by decide)⟩
